import Mathlib

/-!
Shallow embedding of the client-server messaging core of the repository
(maf / thaf): the `ServiceRequester` state machine
(src/src/common/maf/messaging/client-server/ServiceRequester.cpp), the
in-address-space router `IAMessageRouter`
(src/src/maf/messaging/client-server/IAMessageRouter.cpp) and the local
IPC codec `ParamTrait::translate`
(src/include/maf/messaging/client-server/ipc/local/ParamTrait.h).

Modelling conventions:
- machine pointers that may be null (`CSPayloadIFPtr`, observer pointers,
  `std::function` callbacks) become `Option`;
- `std::map`s become functions `OpID → _`; for the two registration maps
  the codomain is `List RegEntry` and key-presence is list non-emptiness,
  which is faithful because every source path that erases the last element
  of a `registerEntriesMap_` bucket also erases the bucket, and bucket
  presence of `requestEntriesMap_` is never tested by the source;
- each stateful member function becomes a pure function from the state to
  a result record carrying the new state plus the externally observable
  effects of the call: the envelopes handed to `sendMessageToServer`, the
  user callbacks invoked, the promises resolved and the observers
  notified;
- the results of the environment (the status returned by the transport for
  `sendMessageToServer`, the outcome of waiting on the future of a sync
  request, the behaviour of user observer callbacks) are explicit
  parameters.
-/

abbrev OpID := Nat
abbrev RequestID := Nat
abbrev PromiseID := Nat

/-- A `CSPayloadIFPtr` of the source: a possibly null shared pointer to an
opaque payload; `none` is the null/empty payload `{}`. -/
abbrev CSPayloadIFPtr := Option Nat

inductive Availability
  | Unknown
  | Available
  | Unavailable
deriving DecidableEq

inductive OpCode
  | Request
  | Abort
  | StatusGet
  | StatusRegister
  | SignalRegister
  | Unregister
  | ServiceStatusUpdate
deriving DecidableEq

inductive ActionCallStatus
  | Success
  | ServiceUnavailable
  | ReceiverUnavailable
  | InvalidParam
  | Timeout
  | FailedUnknown
deriving DecidableEq

/-- The `CSMessage` envelope (serviceID, operationID, operationCode,
requestID, payload); the source address is irrelevant to the requester
code embedded here. -/
structure CSMessage where
  serviceID : Nat
  operationID : OpID
  operationCode : OpCode
  requestID : RequestID
  payload : CSPayloadIFPtr
deriving DecidableEq

/-- A `CSPayloadProcessCallback` of the source: either a user callback
(identified by an opaque id) or the internal promise-resolving callback
created by `sendMessageSync`. -/
inductive CallbackRef
  | user (id : Nat)
  | syncResolver (pid : PromiseID)
deriving DecidableEq

/-- One element of a `RegEntriesMap` bucket: `RegEntry{requestID, callback}`. -/
abbrev RegEntry := RequestID × CallbackRef

/-- `RegID`: identity of one registration or pending request.
`RequestIDInvalid` is modelled as `0` (the ID manager never allocates 0). -/
structure RegID where
  opID : OpID := 0
  requestID : RequestID := 0
deriving DecidableEq

def RegID.valid (r : RegID) : Bool := decide (r.requestID ≠ 0)

/-- The mutable members of `ServiceRequester`.  `nextRequestID` is the last
request ID handed out by `idMgr_` (allocation returns `nextRequestID + 1`,
so an allocated ID is never 0); reclamation is a no-op in the model.
`nextPromiseID` plays the same role for the identity of sync promises. -/
structure RequesterState where
  sid : Nat
  serviceStatus : Availability
  requestEntriesMap : OpID → List RegEntry
  registerEntriesMap : OpID → List RegEntry
  propertiesCache : OpID → Option CSPayloadIFPtr
  syncRequestPromises : List PromiseID
  serviceStatusObservers : List Nat
  nextRequestID : RequestID
  nextPromiseID : PromiseID

/-- Result of one requester operation: the returned value, the state after
the call, and the observable effects of the call. -/
structure OpResult (α : Type) where
  ret : α
  state : RequesterState
  sent : List CSMessage := []
  calls : List (Nat × CSPayloadIFPtr) := []
  resolved : List (PromiseID × CSPayloadIFPtr) := []
  notes : List (Nat × Availability × Availability) := []
  escaped : Option Nat := none
  callStatus : Option ActionCallStatus := none

/-- Pointwise update of a map modelled as a function. -/
def updateFn {α : Type} (m : OpID → α) (k : OpID) (v : α) : OpID → α :=
  fun x => if x = k then v else m x

/-- Erase the first entry whose `requestID` matches (the erase-and-break
loop shape used by `abortRequest`, `onRequestResult` and `removeRegEntry`). -/
def eraseFirstReq : List RegEntry → RequestID → List RegEntry
  | [], _ => []
  | e :: t, rid => if e.1 = rid then t else e :: eraseFirstReq t rid

def serviceUnavailable (s : RequesterState) : Bool :=
  decide (s.serviceStatus ≠ Availability.Available)

/-- `createCSMessage`: an envelope of this service with `RequestIDInvalid`. -/
def createCSMessage (s : RequesterState) (opID : OpID) (opCode : OpCode)
    (msgContent : CSPayloadIFPtr) : CSMessage :=
  { serviceID := s.sid, operationID := opID, operationCode := opCode,
    requestID := 0, payload := msgContent }

/-- `storeRegEntry`: allocate a unique ID, append the entry to the bucket of
`propertyID`, return the updated map, the `RegID`, and the bucket size. -/
def storeRegEntry (m : OpID → List RegEntry) (lastID : RequestID)
    (propertyID : OpID) (callback : CallbackRef) :
    (OpID → List RegEntry) × RegID × Nat :=
  let rid := lastID + 1
  let entries := m propertyID ++ [(rid, callback)]
  (updateFn m propertyID entries, { opID := propertyID, requestID := rid },
    entries.length)

/-- `removeRegEntry`: erase the first entry matching `regID.requestID` from
the bucket of `regID.opID`; erase the bucket when it empties; return the
remaining bucket size (0 when the bucket was absent or emptied). -/
def removeRegEntry (m : OpID → List RegEntry) (regID : RegID) :
    (OpID → List RegEntry) × Nat :=
  let entries := m regID.opID
  if entries = [] then (m, 0)
  else
    let entries' := eraseFirstReq entries regID.requestID
    if entries' = [] then (updateFn m regID.opID [], 0)
    else (updateFn m regID.opID entries', entries'.length)

/-- Invoke one callback with a payload.  A `user` callback is an external
effect; the `syncResolver` callback of `sendMessageSync` removes its
promise from `syncRequestPromises_` (`removeRequestPromies`) and fulfils
it. -/
def applyCallback (s : RequesterState) (cb : CallbackRef) (p : CSPayloadIFPtr) :
    RequesterState × List (Nat × CSPayloadIFPtr) × List (PromiseID × CSPayloadIFPtr) :=
  match cb with
  | CallbackRef.user i => (s, [(i, p)], [])
  | CallbackRef.syncResolver pid =>
      ({ s with syncRequestPromises := s.syncRequestPromises.erase pid },
        [], [(pid, p)])

/-- Invoke a snapshot of callbacks in order, accumulating the effects. -/
def applyCallbacks (s : RequesterState) (cbs : List CallbackRef)
    (p : CSPayloadIFPtr) :
    RequesterState × List (Nat × CSPayloadIFPtr) × List (PromiseID × CSPayloadIFPtr) :=
  match cbs with
  | [] => (s, [], [])
  | c :: t =>
      let r1 := applyCallback s c p
      let r2 := applyCallbacks r1.1 t p
      (r2.1, r1.2.1 ++ r2.2.1, r1.2.2 ++ r2.2.2)

/-- Result of the internal async send path (`storeAndSendRequestToServer`). -/
structure AsyncSendResult where
  regID : RegID
  state : RequesterState
  sent : List CSMessage
  callStatus : ActionCallStatus

/-- `storeAndSendRequestToServer`: store a pending entry, stamp the fresh
request ID onto the envelope, hand it to the transport; on transport
failure remove the entry again and clear the `RegID`. -/
def storeAndSendRequestToServer (s : RequesterState) (outgoingMsg : CSMessage)
    (callback : CallbackRef) (sendSt : ActionCallStatus) : AsyncSendResult :=
  let r := storeRegEntry s.requestEntriesMap s.nextRequestID
    outgoingMsg.operationID callback
  let s1 := { s with requestEntriesMap := r.1,
                     nextRequestID := s.nextRequestID + 1 }
  let rid := r.2.1.requestID
  let outMsg := { outgoingMsg with requestID := rid }
  if sendSt = ActionCallStatus.Success then
    { regID := r.2.1, state := s1, sent := [outMsg], callStatus := sendSt }
  else
    let rm := removeRegEntry s1.requestEntriesMap r.2.1
    { regID := {}, state := { s1 with requestEntriesMap := rm.1 },
      sent := [outMsg], callStatus := sendSt }

/-- `sendMessageAsync`. -/
def sendMessageAsync (s : RequesterState) (operationID : OpID)
    (operationCode : OpCode) (msgContent : CSPayloadIFPtr)
    (callback : CallbackRef) (sendSt : ActionCallStatus) : AsyncSendResult :=
  storeAndSendRequestToServer s
    (createCSMessage s operationID operationCode msgContent) callback sendSt

/-- `sendRequestAsync`: fails synchronously when the service is not
`Available`, otherwise delegates to the async send path. -/
def sendRequestAsync (s : RequesterState) (opID : OpID)
    (msgContent : CSPayloadIFPtr) (callback : CallbackRef)
    (sendSt : ActionCallStatus) : OpResult RegID :=
  if serviceUnavailable s then
    { ret := {}, state := s,
      callStatus := some ActionCallStatus.ServiceUnavailable }
  else
    let a := sendMessageAsync s opID OpCode.Request msgContent callback sendSt
    { ret := a.regID, state := a.state, sent := a.sent,
      callStatus := some a.callStatus }

/-- `abortRequest`: remove the matching pending entry if present and send an
`Abort` envelope carrying `regID.requestID`. -/
def abortRequest (s : RequesterState) (regID : RegID)
    (sendSt : ActionCallStatus) : OpResult Unit :=
  if regID.valid then
    match (s.requestEntriesMap regID.opID).find?
        (fun e => decide (e.1 = regID.requestID)) with
    | some _ =>
        let m1 := updateFn s.requestEntriesMap regID.opID
          (eraseFirstReq (s.requestEntriesMap regID.opID) regID.requestID)
        let s1 := { s with requestEntriesMap := m1 }
        let msg0 := createCSMessage s regID.opID OpCode.Abort none
        let msg := { msg0 with requestID := regID.requestID }
        { ret := (), state := s1, sent := [msg], callStatus := some sendSt }
    | none => { ret := (), state := s }
  else
    { ret := (), state := s,
      callStatus := some ActionCallStatus.InvalidParam }

/-- Outcome of waiting for the future of a synchronous request: the response
arrived in time (carrying the payload the server answered with), the wait
timed out, or the wait threw. -/
inductive SyncOutcome
  | response (p : CSPayloadIFPtr)
  | timeoutExpired
  | threw
deriving DecidableEq

/-- `sendMessageSync`: push a fresh promise, send asynchronously with the
promise-resolving callback, then wait.  In the `response` case the
response was dispatched through `onRequestResult` before the wait ended:
the pending entry was consumed and the resolver removed the promise.  In
the `timeoutExpired` case the requester aborts the request and reports
`Timeout`; note that nothing removes the promise in this branch. -/
def sendMessageSync (s : RequesterState) (operationID : OpID)
    (opCode : OpCode) (msgContent : CSPayloadIFPtr)
    (sendSt : ActionCallStatus) (outcome : SyncOutcome) :
    OpResult CSPayloadIFPtr :=
  let pid := s.nextPromiseID
  let s1 := { s with syncRequestPromises := s.syncRequestPromises ++ [pid],
                     nextPromiseID := pid + 1 }
  let a := sendMessageAsync s1 operationID opCode msgContent
    (CallbackRef.syncResolver pid) sendSt
  if a.regID.valid then
    match outcome with
    | SyncOutcome.response p =>
        let s2 := { a.state with
          requestEntriesMap := updateFn a.state.requestEntriesMap operationID
            (eraseFirstReq (a.state.requestEntriesMap operationID)
              a.regID.requestID),
          syncRequestPromises := a.state.syncRequestPromises.erase pid }
        { ret := p, state := s2, sent := a.sent, resolved := [(pid, p)],
          callStatus := some a.callStatus }
    | SyncOutcome.timeoutExpired =>
        let ab := abortRequest a.state a.regID sendSt
        { ret := none, state := ab.state, sent := a.sent ++ ab.sent,
          callStatus := some ActionCallStatus.Timeout }
    | SyncOutcome.threw =>
        { ret := none, state := a.state, sent := a.sent,
          callStatus := some ActionCallStatus.FailedUnknown }
  else
    { ret := none,
      state := { a.state with
        syncRequestPromises := a.state.syncRequestPromises.erase pid },
      sent := a.sent, callStatus := some a.callStatus }

/-- `sendRequest`: the synchronous request entry point. -/
def sendRequest (s : RequesterState) (opID : OpID)
    (msgContent : CSPayloadIFPtr) (sendSt : ActionCallStatus)
    (outcome : SyncOutcome) : OpResult CSPayloadIFPtr :=
  if serviceUnavailable s then
    { ret := none, state := s,
      callStatus := some ActionCallStatus.ServiceUnavailable }
  else
    sendMessageSync s opID OpCode.Request msgContent sendSt outcome

/-- `getCachedProperty`: the cached pointer for the property, or null. -/
def getCachedProperty (s : RequesterState) (propertyID : OpID) :
    CSPayloadIFPtr :=
  (s.propertiesCache propertyID).getD none

/-- `cachePropertyStatus`: `insert_or_assign` into the cache. -/
def cachePropertyStatus (s : RequesterState) (propertyID : OpID)
    (property : CSPayloadIFPtr) : RequesterState :=
  { s with propertiesCache :=
      updateFn s.propertiesCache propertyID (some property) }

/-- `removeCachedProperty`. -/
def removeCachedProperty (s : RequesterState) (propertyID : OpID) :
    RequesterState :=
  { s with propertiesCache := updateFn s.propertiesCache propertyID none }

/-- `cachedPropertyUpToDate`: true iff a registration bucket for the
property exists. -/
def cachedPropertyUpToDate (s : RequesterState) (propertyID : OpID) : Bool :=
  decide (s.registerEntriesMap propertyID ≠ [])

/-- `getStatus` (synchronous overload): serve from the cache when a
registration exists, otherwise guard availability and fall back to a
synchronous `StatusGet`. -/
def getStatus (s : RequesterState) (propertyID : OpID)
    (sendSt : ActionCallStatus) (outcome : SyncOutcome) :
    OpResult CSPayloadIFPtr :=
  if cachedPropertyUpToDate s propertyID then
    { ret := getCachedProperty s propertyID, state := s }
  else if serviceUnavailable s then
    { ret := none, state := s,
      callStatus := some ActionCallStatus.ServiceUnavailable }
  else
    sendMessageSync s propertyID OpCode.StatusGet none sendSt outcome

/-- `registerNotification`: reject a null callback; store the entry; only
the first entry of the bucket sends the register envelope (stamped with
the fresh request ID); a later `StatusRegister` entry is instead served
the cached property (when one exists) and reported `Success`; a later
`SignalRegister` entry leaves the call status untouched. -/
def registerNotification (s : RequesterState) (opID : OpID) (opCode : OpCode)
    (callback : Option CallbackRef) (sendSt : ActionCallStatus) :
    OpResult RegID :=
  match callback with
  | none =>
      { ret := {}, state := s,
        callStatus := some ActionCallStatus.InvalidParam }
  | some cb =>
      let r := storeRegEntry s.registerEntriesMap s.nextRequestID opID cb
      let s1 := { s with registerEntriesMap := r.1,
                         nextRequestID := s.nextRequestID + 1 }
      if r.2.2 = 1 then
        let msg0 := createCSMessage s opID opCode none
        let msg := { msg0 with requestID := r.2.1.requestID }
        if sendSt = ActionCallStatus.Success then
          { ret := r.2.1, state := s1, sent := [msg],
            callStatus := some sendSt }
        else
          let rm := removeRegEntry s1.registerEntriesMap r.2.1
          { ret := {}, state := { s1 with registerEntriesMap := rm.1 },
            sent := [msg], callStatus := some sendSt }
      else if opCode = OpCode.StatusRegister then
        match getCachedProperty s opID with
        | none =>
            { ret := r.2.1, state := s1,
              callStatus := some ActionCallStatus.Success }
        | some v =>
            let ac := applyCallback s1 cb (some v)
            { ret := r.2.1, state := ac.1, calls := ac.2.1,
              resolved := ac.2.2,
              callStatus := some ActionCallStatus.Success }
      else
        { ret := r.2.1, state := s1 }

/-- `registerStatus`. -/
def registerStatus (s : RequesterState) (propertyID : OpID)
    (callback : Option CallbackRef) (sendSt : ActionCallStatus) :
    OpResult RegID :=
  if serviceUnavailable s then
    { ret := {}, state := s,
      callStatus := some ActionCallStatus.ServiceUnavailable }
  else
    registerNotification s propertyID OpCode.StatusRegister callback sendSt

/-- `registerSignal`. -/
def registerSignal (s : RequesterState) (eventID : OpID)
    (callback : Option CallbackRef) (sendSt : ActionCallStatus) :
    OpResult RegID :=
  if serviceUnavailable s then
    { ret := {}, state := s,
      callStatus := some ActionCallStatus.ServiceUnavailable }
  else
    registerNotification s eventID OpCode.SignalRegister callback sendSt

/-- `unregister`: remove the entry of `regID`; when its bucket empties, drop
the cached property and send one `Unregister` envelope. -/
def unregister (s : RequesterState) (regID : RegID)
    (sendSt : ActionCallStatus) : OpResult ActionCallStatus :=
  if serviceUnavailable s then
    { ret := ActionCallStatus.ServiceUnavailable, state := s }
  else if regID.valid then
    let rm := removeRegEntry s.registerEntriesMap regID
    let s1 := { s with registerEntriesMap := rm.1 }
    if rm.2 = 0 then
      let s2 := removeCachedProperty s1 regID.opID
      { ret := ActionCallStatus.Success, state := s2,
        sent := [createCSMessage s regID.opID OpCode.Unregister none] }
    else
      { ret := ActionCallStatus.Success, state := s1 }
  else
    { ret := ActionCallStatus.InvalidParam, state := s }

/-- `unregisterAll`: drop the whole bucket, send `Unregister`, drop the
cached property. -/
def unregisterAll (s : RequesterState) (propertyID : OpID)
    (sendSt : ActionCallStatus) : OpResult ActionCallStatus :=
  if serviceUnavailable s then
    { ret := ActionCallStatus.ServiceUnavailable, state := s }
  else
    let m1 := updateFn s.registerEntriesMap propertyID []
    let s1 := { s with registerEntriesMap := m1 }
    let s2 := removeCachedProperty s1 propertyID
    { ret := ActionCallStatus.Success, state := s2,
      sent := [createCSMessage s propertyID OpCode.Unregister none] }

/-- `onRegistersUpdated`: snapshot the callbacks registered for the
operation of the message and deliver the (cloned) payload to each; report
whether any callback was registered. -/
def onRegistersUpdated (s : RequesterState) (msg : CSMessage) : OpResult Bool :=
  let cbs := (s.registerEntriesMap msg.operationID).map (fun e => e.2)
  let ac := applyCallbacks s cbs msg.payload
  { ret := decide (cbs ≠ []), state := ac.1, calls := ac.2.1,
    resolved := ac.2.2 }

/-- `onRequestResult`: consume the pending entry matching
`(operationID, requestID)` and invoke its callback once. -/
def onRequestResult (s : RequesterState) (msg : CSMessage) : OpResult Unit :=
  match (s.requestEntriesMap msg.operationID).find?
      (fun e => decide (e.1 = msg.requestID)) with
  | none => { ret := (), state := s }
  | some e =>
      let m1 := updateFn s.requestEntriesMap msg.operationID
        (eraseFirstReq (s.requestEntriesMap msg.operationID) msg.requestID)
      let s1 := { s with requestEntriesMap := m1 }
      let ac := applyCallback s1 e.2 msg.payload
      { ret := (), state := ac.1, calls := ac.2.1, resolved := ac.2.2 }

/-- `onIncomingMessage`: the requester-side dispatch switch.  A
`StatusRegister` update is written to the property cache only when at
least one registration consumed it. -/
def onIncomingMessage (s : RequesterState) (msg : CSMessage) : OpResult Bool :=
  if msg.serviceID = s.sid then
    match msg.operationCode with
    | OpCode.SignalRegister =>
        let r := onRegistersUpdated s msg
        { ret := true, state := r.state, calls := r.calls,
          resolved := r.resolved }
    | OpCode.StatusRegister =>
        let r := onRegistersUpdated s msg
        if r.ret then
          { ret := true,
            state := cachePropertyStatus r.state msg.operationID msg.payload,
            calls := r.calls, resolved := r.resolved }
        else
          { ret := true, state := r.state, calls := r.calls,
            resolved := r.resolved }
    | OpCode.Request =>
        let r := onRequestResult s msg
        { ret := true, state := r.state, calls := r.calls,
          resolved := r.resolved }
    | OpCode.StatusGet =>
        let r := onRequestResult s msg
        { ret := true, state := r.state, calls := r.calls,
          resolved := r.resolved }
    | _ => { ret := false, state := s }
  else
    { ret := true, state := s }

/-- Reaction of a user observer callback when notified: return normally,
throw `UnavailableException`, or throw anything else. -/
inductive ObserverReaction
  | ok
  | throwsUnavailable
  | throwsOther
deriving DecidableEq

/-- `registerServiceStatusObserver`: ignore a null observer; append the
observer; when the status read together with the insertion is `Available`,
notify it once with `Unknown → Available` (outside the lock). -/
def registerServiceStatusObserver (s : RequesterState)
    (observer : Option Nat) : OpResult Unit :=
  match observer with
  | none => { ret := (), state := s }
  | some o =>
      let s1 := { s with serviceStatusObservers :=
        s.serviceStatusObservers ++ [o] }
      if s.serviceStatus = Availability.Available then
        { ret := (), state := s1,
          notes := [(o, Availability.Unknown, Availability.Available)] }
      else
        { ret := (), state := s1 }

/-- `unregisterServiceStatusObserver`: `remove_if` of every match. -/
def unregisterServiceStatusObserver (s : RequesterState) (observer : Nat) :
    OpResult Unit :=
  { ret := (), state := { s with serviceStatusObservers :=
      s.serviceStatusObservers.filter (fun o => decide (o ≠ observer)) } }

/-- The notification loop of `forwardServiceStatusToObservers`, run while
holding the observer-list lock: an observer that throws
`UnavailableException` is erased and iteration continues; any other
exception stops the loop and propagates (returned as the third
component); the first and second components are the list left behind and
the observers invoked, in order. -/
def forwardLoop (behavior : Nat → ObserverReaction) :
    List Nat → List Nat × List Nat × Option Nat
  | [] => ([], [], none)
  | o :: rest =>
      match behavior o with
      | ObserverReaction.ok =>
          let r := forwardLoop behavior rest
          (o :: r.1, o :: r.2.1, r.2.2)
      | ObserverReaction.throwsUnavailable =>
          let r := forwardLoop behavior rest
          (r.1, o :: r.2.1, r.2.2)
      | ObserverReaction.throwsOther => (o :: rest, [o], some o)

/-- `forwardServiceStatusToObservers`. -/
def forwardServiceStatusToObservers (s : RequesterState)
    (behavior : Nat → ObserverReaction) (oldStatus newStatus : Availability) :
    OpResult Unit :=
  let r := forwardLoop behavior s.serviceStatusObservers
  { ret := (), state := { s with serviceStatusObservers := r.1 },
    notes := r.2.1.map (fun o => (o, oldStatus, newStatus)),
    escaped := r.2.2 }

/-- `abortAllSyncRequest`: resolve every sync promise with the empty payload
and clear the list. -/
def abortAllSyncRequest (s : RequesterState) :
    RequesterState × List (PromiseID × CSPayloadIFPtr) :=
  ({ s with syncRequestPromises := [] },
    s.syncRequestPromises.map (fun p => (p, (none : CSPayloadIFPtr))))

/-- `clearAllAsyncRequests`. -/
def clearAllAsyncRequests (s : RequesterState) : RequesterState :=
  { s with requestEntriesMap := fun _ => [] }

/-- `clearAllRegisterEntries`. -/
def clearAllRegisterEntries (s : RequesterState) : RequesterState :=
  { s with registerEntriesMap := fun _ => [] }

/-- `onServiceStatusChanged`: on a genuine status change of this service,
store the new status; on `Unavailable` additionally abort all sync
requests and clear both entry maps (note: the property cache is not
touched); then forward the change to the observers. -/
def onServiceStatusChanged (s : RequesterState)
    (behavior : Nat → ObserverReaction) (sidIn : Nat)
    (oldStatus newStatus : Availability) : OpResult Unit :=
  if sidIn = s.sid ∧ newStatus ≠ s.serviceStatus then
    let s1 := { s with serviceStatus := newStatus }
    if newStatus = Availability.Unavailable then
      let ar := abortAllSyncRequest s1
      let s2 := clearAllRegisterEntries (clearAllAsyncRequests ar.1)
      let f := forwardServiceStatusToObservers s2 behavior oldStatus newStatus
      { ret := (), state := f.state, resolved := ar.2, notes := f.notes,
        escaped := f.escaped }
    else
      let f := forwardServiceStatusToObservers s1 behavior oldStatus newStatus
      { ret := (), state := f.state, notes := f.notes, escaped := f.escaped }
  else
    { ret := (), state := s }

/-- A freshly constructed requester.  Modelled from the spec: the class
constructor and the member initialisers live in ServiceRequester.h, which
is not part of the sources; the spec fixes the initial availability to
`Unknown` and all tables empty. -/
def initialRequesterState (sid : Nat) : RequesterState :=
  { sid := sid, serviceStatus := Availability.Unknown,
    requestEntriesMap := fun _ => [], registerEntriesMap := fun _ => [],
    propertiesCache := fun _ => none, syncRequestPromises := [],
    serviceStatusObservers := [], nextRequestID := 0, nextPromiseID := 0 }

/-- Trace of `IAMessageRouter::deinit`: the value returned and how many
times each base was deinitialised.  The source body is
`ClientBase::deinit() && ClientBase::deinit()`: the client base is
deinitialised once more when the first call succeeds, and the server base
never; `serverDeinitOk` is never consulted. -/
structure RouterDeinitTrace where
  ret : Bool
  clientDeinits : Nat
  serverDeinits : Nat
deriving DecidableEq

def IAMessageRouter_deinit (clientDeinitOk serverDeinitOk : Bool) :
    RouterDeinitTrace :=
  if clientDeinitOk then
    { ret := clientDeinitOk, clientDeinits := 2, serverDeinits := 0 }
  else
    { ret := false, clientDeinits := 1, serverDeinits := 0 }

/-- `TranslationStatus` of the codec. -/
inductive TranslationStatus
  | Success
  | NoSource
  | SourceCorrupted
  | DestSrcMismatch
deriving DecidableEq

/-- What reading the byte stream of an incoming payload does: deserialize to
a value with the fail bit set or clear, or throw. -/
inductive StreamReadOutcome
  | ok (failBit : Bool) (value : Nat)
  | throwsExc
deriving DecidableEq

/-- An `IncomingPayload`: a possibly null byte stream. -/
structure IncomingPayload where
  stream : Option StreamReadOutcome
deriving DecidableEq

/-- `ParamTrait::translate` (payload → typed message): returns the reported
`TranslationStatus` and the resulting message pointer. -/
def ParamTrait_translate (payload : Option IncomingPayload) :
    TranslationStatus × Option Nat :=
  match payload with
  | none => (TranslationStatus.NoSource, none)
  | some p =>
      match p.stream with
      | none => (TranslationStatus.NoSource, none)
      | some (StreamReadOutcome.ok failBit v) =>
          if failBit then (TranslationStatus.SourceCorrupted, some v)
          else (TranslationStatus.Success, some v)
      | some StreamReadOutcome.throwsExc =>
          (TranslationStatus.DestSrcMismatch, none)

/-! Concrete reachable requester states used by the concrete evaluations:
a requester of service `0` that became `Available`, then registered a
status callback for property `5`, then received a `StatusRegister` update
carrying payload `42`, then observed the service become `Unavailable`. -/

def stateAvail : RequesterState :=
  (onServiceStatusChanged (initialRequesterState 0)
    (fun _ => ObserverReaction.ok) 0
    Availability.Unknown Availability.Available).state

def stateOneReg : RequesterState :=
  (registerStatus stateAvail 5 (some (CallbackRef.user 1))
    ActionCallStatus.Success).state

def stateCached : RequesterState :=
  (onIncomingMessage stateOneReg
    { serviceID := 0, operationID := 5,
      operationCode := OpCode.StatusRegister,
      requestID := 1, payload := some 42 }).state

def stateDown : RequesterState :=
  (onServiceStatusChanged stateCached (fun _ => ObserverReaction.ok) 0
    Availability.Available Availability.Unavailable).state

/-- Observer behaviour where only observer `2` raises
`UnavailableException` when notified. -/
def c8Behavior : Nat → ObserverReaction :=
  fun o => if o = 2 then ObserverReaction.throwsUnavailable
           else ObserverReaction.ok

/-- An available requester with three registered status observers. -/
def c8State : RequesterState :=
  { stateAvail with serviceStatusObservers := [1, 2, 3] }

/-! Helper lemmas shared by the claim proofs. -/

@[simp] theorem updateFn_same {α : Type} (m : OpID → α) (k : OpID) (v : α) :
    updateFn m k v k = v := by
  simp [updateFn]

theorem updateFn_other {α : Type} (m : OpID → α) (k k' : OpID) (v : α)
    (h : k' ≠ k) : updateFn m k v k' = m k' := by
  simp [updateFn, h]

theorem eraseFirstReq_append_fresh (es : List RegEntry) (rid : RequestID)
    (cb : CallbackRef) (h : ∀ e ∈ es, e.1 ≠ rid) :
    eraseFirstReq (es ++ [(rid, cb)]) rid = es := by
  induction es with
  | nil => simp [eraseFirstReq]
  | cons e t ih =>
      simp only [List.cons_append, eraseFirstReq]
      rw [if_neg (h e (List.mem_cons_self e t))]
      exact congrArg (e :: ·) (ih (fun x hx => h x (List.mem_cons_of_mem e hx)))

theorem find_append_fresh (es : List RegEntry) (rid : RequestID)
    (cb : CallbackRef) (h : ∀ e ∈ es, e.1 ≠ rid) :
    (es ++ [(rid, cb)]).find? (fun e => decide (e.1 = rid))
      = some (rid, cb) := by
  induction es with
  | nil => simp
  | cons e t ih =>
      simp only [List.cons_append]
      rw [List.find?_cons_of_neg]
      · exact ih (fun x hx => h x (List.mem_cons_of_mem e hx))
      · simp [h e (List.mem_cons_self e t)]

theorem sendMessageSync_sent_head (s : RequesterState) (operationID : OpID)
    (opCode : OpCode) (msgContent : CSPayloadIFPtr)
    (sendSt : ActionCallStatus) (outcome : SyncOutcome) :
    ((sendMessageSync s operationID opCode msgContent sendSt outcome).sent).head?
      = some { serviceID := s.sid, operationID := operationID,
               operationCode := opCode,
               requestID := s.nextRequestID + 1, payload := msgContent } := by
  by_cases hs : sendSt = ActionCallStatus.Success <;>
    cases outcome <;>
      simp [sendMessageSync, sendMessageAsync, storeAndSendRequestToServer,
        storeRegEntry, createCSMessage, RegID.valid, hs, abortRequest]

/-- Claim C3: every call to `sendRequestAsync` or `sendRequest` made while
the service status is not `Available` fails synchronously: it reports
`ActionCallStatus.ServiceUnavailable`, returns an invalid `RegID`
(respectively an empty payload), leaves the whole requester state (and so
all four tables) unchanged, and invokes no user callback and resolves no
promise. -/
theorem c3_unavailable_requests_fail_synchronously (s : RequesterState)
    (opID : OpID) (payload : CSPayloadIFPtr) (cb : CallbackRef)
    (sendSt : ActionCallStatus) (outcome : SyncOutcome)
    (h : s.serviceStatus ≠ Availability.Available) :
    (sendRequestAsync s opID payload cb sendSt).ret.valid = false ∧
    (sendRequestAsync s opID payload cb sendSt).state = s ∧
    (sendRequestAsync s opID payload cb sendSt).sent = [] ∧
    (sendRequestAsync s opID payload cb sendSt).calls = [] ∧
    (sendRequestAsync s opID payload cb sendSt).resolved = [] ∧
    (sendRequestAsync s opID payload cb sendSt).callStatus
      = some ActionCallStatus.ServiceUnavailable ∧
    (sendRequest s opID payload sendSt outcome).ret = none ∧
    (sendRequest s opID payload sendSt outcome).state = s ∧
    (sendRequest s opID payload sendSt outcome).sent = [] ∧
    (sendRequest s opID payload sendSt outcome).calls = [] ∧
    (sendRequest s opID payload sendSt outcome).resolved = [] ∧
    (sendRequest s opID payload sendSt outcome).callStatus
      = some ActionCallStatus.ServiceUnavailable := by
  have hu : serviceUnavailable s = true := by
    simp [serviceUnavailable, h]
  simp [sendRequestAsync, sendRequest, hu, RegID.valid]

/-- Witness for C3 at a freshly constructed requester (status `Unknown`). -/
theorem c3_unavailable_requests_fail_synchronously_witness :
    (initialRequesterState 0).serviceStatus ≠ Availability.Available ∧
    (sendRequestAsync (initialRequesterState 0) 1 none (CallbackRef.user 0)
        ActionCallStatus.Success).ret.valid = false :=
  ⟨by decide,
    (c3_unavailable_requests_fail_synchronously (initialRequesterState 0) 1
      none (CallbackRef.user 0) ActionCallStatus.Success
      SyncOutcome.timeoutExpired (by decide)).1⟩

/-- Claim C9: `registerServiceStatusObserver` ignores a null observer
entirely; a non-null observer is appended to the observer list (all other
state unchanged, nothing sent), and is immediately notified exactly once
with the transition `Unknown → Available` iff the status read together
with the insertion is `Available`. -/
theorem c9_register_status_observer (s : RequesterState) (o : Nat) :
    (registerServiceStatusObserver s none).state = s ∧
    (registerServiceStatusObserver s none).notes = [] ∧
    (registerServiceStatusObserver s (some o)).state.serviceStatusObservers
      = s.serviceStatusObservers ++ [o] ∧
    (registerServiceStatusObserver s (some o)).state.serviceStatus
      = s.serviceStatus ∧
    (registerServiceStatusObserver s (some o)).state.registerEntriesMap
      = s.registerEntriesMap ∧
    (registerServiceStatusObserver s (some o)).state.requestEntriesMap
      = s.requestEntriesMap ∧
    (registerServiceStatusObserver s (some o)).state.propertiesCache
      = s.propertiesCache ∧
    (registerServiceStatusObserver s (some o)).state.syncRequestPromises
      = s.syncRequestPromises ∧
    (registerServiceStatusObserver s (some o)).sent = [] ∧
    (s.serviceStatus = Availability.Available →
      (registerServiceStatusObserver s (some o)).notes
        = [(o, Availability.Unknown, Availability.Available)]) ∧
    (s.serviceStatus ≠ Availability.Available →
      (registerServiceStatusObserver s (some o)).notes = []) := by
  by_cases h : s.serviceStatus = Availability.Available <;>
    simp [registerServiceStatusObserver, h]

/-- Witness for C9 at an available requester. -/
theorem c9_register_status_observer_witness :
    stateAvail.serviceStatus = Availability.Available ∧
    (registerServiceStatusObserver stateAvail (some 9)).notes
      = [(9, Availability.Unknown, Availability.Available)] :=
  ⟨by decide, (c9_register_status_observer stateAvail 9).2.2.2.2.2.2.2.2.2.1
    (by decide)⟩

/-- Claim C7: the decode direction of `ParamTrait::translate` reports a
status that is always one of Success, NoSource, SourceCorrupted and
DestSrcMismatch; a null or stream-less payload yields `NoSource` with a
null result; a throwing deserialization yields `DestSrcMismatch` with a
null result; a stream whose fail bit ends up set yields `SourceCorrupted`;
otherwise `Success` with the decoded message; moreover the result is null
exactly for the `NoSource` and `DestSrcMismatch` statuses. -/
theorem c7_translate_status_partition (p : Option IncomingPayload) :
    ((ParamTrait_translate p).1 = TranslationStatus.Success ∨
     (ParamTrait_translate p).1 = TranslationStatus.NoSource ∨
     (ParamTrait_translate p).1 = TranslationStatus.SourceCorrupted ∨
     (ParamTrait_translate p).1 = TranslationStatus.DestSrcMismatch) ∧
    ((ParamTrait_translate p).2 = none ↔
      ((ParamTrait_translate p).1 = TranslationStatus.NoSource ∨
       (ParamTrait_translate p).1 = TranslationStatus.DestSrcMismatch)) ∧
    (p = none → ParamTrait_translate p = (TranslationStatus.NoSource, none)) ∧
    (∀ q, p = some q → q.stream = none →
      ParamTrait_translate p = (TranslationStatus.NoSource, none)) ∧
    (∀ q, p = some q → q.stream = some StreamReadOutcome.throwsExc →
      ParamTrait_translate p = (TranslationStatus.DestSrcMismatch, none)) ∧
    (∀ q v, p = some q → q.stream = some (StreamReadOutcome.ok true v) →
      ParamTrait_translate p = (TranslationStatus.SourceCorrupted, some v)) ∧
    (∀ q v, p = some q → q.stream = some (StreamReadOutcome.ok false v) →
      ParamTrait_translate p = (TranslationStatus.Success, some v)) := by
  refine ⟨?_, ?_, ?_, ?_, ?_, ?_, ?_⟩
  · rcases p with _ | ⟨_ | (⟨fb, v⟩ | _)⟩
    · simp [ParamTrait_translate]
    · simp [ParamTrait_translate]
    · cases fb <;> simp [ParamTrait_translate]
    · simp [ParamTrait_translate]
  · rcases p with _ | ⟨_ | (⟨fb, v⟩ | _)⟩
    · simp [ParamTrait_translate]
    · simp [ParamTrait_translate]
    · cases fb <;> simp [ParamTrait_translate]
    · simp [ParamTrait_translate]
  · rintro rfl
    simp [ParamTrait_translate]
  · rintro q rfl hs
    simp [ParamTrait_translate, hs]
  · rintro q rfl hs
    simp [ParamTrait_translate, hs]
  · rintro q v rfl hs
    simp [ParamTrait_translate, hs]
  · rintro q v rfl hs
    simp [ParamTrait_translate, hs]

/-- Witness for C7 at a well-formed payload. -/
theorem c7_translate_status_partition_witness :
    ParamTrait_translate
        (some { stream := some (StreamReadOutcome.ok false 7) })
      = (TranslationStatus.Success, some 7) :=
  (c7_translate_status_partition
    (some { stream := some (StreamReadOutcome.ok false 7) })).2.2.2.2.2.2
    { stream := some (StreamReadOutcome.ok false 7) } 7 rfl rfl

/-- Claim C6 (refuted by evaluation): `IAMessageRouter::deinit` never
deinitialises the server base and, when the first client deinit succeeds,
deinitialises the client base twice; the claim says each base is
deinitialised exactly once. -/
theorem c6_deinit_trace :
    (∀ clientOk serverOk : Bool,
      (IAMessageRouter_deinit clientOk serverOk).serverDeinits = 0) ∧
    (IAMessageRouter_deinit true true).clientDeinits = 2 ∧
    (IAMessageRouter_deinit true true).ret = true := by
  decide

/-- Claim C8 (the exception-handling part, by evaluation): notifying
`[1, 2, 3]` where only observer `2` raises `UnavailableException` calls
all three observers in order, removes observer `2` from the list, keeps
the others, and propagates nothing; an observer raising any other
exception stops the loop after its own call and the exception escapes
with the list left intact. -/
theorem c8_forward_observers_eval :
    forwardLoop c8Behavior [1, 2, 3] = ([1, 3], [1, 2, 3], none) ∧
    (forwardServiceStatusToObservers c8State c8Behavior
        Availability.Available
        Availability.Unavailable).state.serviceStatusObservers = [1, 3] ∧
    (forwardServiceStatusToObservers c8State c8Behavior
        Availability.Available Availability.Unavailable).notes
      = [(1, Availability.Available, Availability.Unavailable),
         (2, Availability.Available, Availability.Unavailable),
         (3, Availability.Available, Availability.Unavailable)] ∧
    (forwardServiceStatusToObservers c8State c8Behavior
        Availability.Available Availability.Unavailable).escaped = none ∧
    forwardLoop (fun _ => ObserverReaction.throwsOther) [1, 2, 3]
      = ([1, 2, 3], [1], some 1) := by
  decide

/-- Claim C1 (refuted): counterexample to the cache-coherency iff on states
reachable by the public operations.  After `registerStatus` on an
available requester (before any update arrives) the registrations for
opID 5 are non-empty while the cache has no entry; and after the
transition to `Unavailable` (which had cached payload 42) the
registrations are empty while the cache still holds the entry, because
`onServiceStatusChanged` never clears `propertiesCache_`. -/
theorem c1_cache_iff_fails_on_reachable_states :
    (stateOneReg.registerEntriesMap 5 ≠ [] ∧
      stateOneReg.propertiesCache 5 = none) ∧
    (stateDown.registerEntriesMap 5 = [] ∧
      stateDown.propertiesCache 5 = some (some 42)) := by
  decide

/-- Claim C1 (amended): the transition to `Unavailable` clears the
registrations and the pending requests, resolves every sync promise with
an empty payload, and leaves the property cache unchanged; hence the
iff between cache presence and non-empty registrations does not hold. -/
theorem c1_unavailable_transition_effects (s : RequesterState)
    (behavior : Nat → ObserverReaction) (oldStatus : Availability)
    (h : s.serviceStatus ≠ Availability.Unavailable) :
    (∀ op, (onServiceStatusChanged s behavior s.sid oldStatus
        Availability.Unavailable).state.registerEntriesMap op = []) ∧
    (∀ op, (onServiceStatusChanged s behavior s.sid oldStatus
        Availability.Unavailable).state.requestEntriesMap op = []) ∧
    (onServiceStatusChanged s behavior s.sid oldStatus
        Availability.Unavailable).state.syncRequestPromises = [] ∧
    (onServiceStatusChanged s behavior s.sid oldStatus
        Availability.Unavailable).resolved
      = s.syncRequestPromises.map (fun p => (p, (none : CSPayloadIFPtr))) ∧
    (onServiceStatusChanged s behavior s.sid oldStatus
        Availability.Unavailable).state.propertiesCache
      = s.propertiesCache := by
  have hc : s.sid = s.sid ∧ Availability.Unavailable ≠ s.serviceStatus :=
    ⟨rfl, fun hh => h hh.symm⟩
  simp [onServiceStatusChanged, hc, abortAllSyncRequest,
    clearAllAsyncRequests, clearAllRegisterEntries,
    forwardServiceStatusToObservers]

/-- Witness for the amended C1 theorem at the cached requester state. -/
theorem c1_unavailable_transition_effects_witness :
    stateCached.serviceStatus ≠ Availability.Unavailable ∧
    (onServiceStatusChanged stateCached (fun _ => ObserverReaction.ok) 0
        Availability.Available Availability.Unavailable).state.propertiesCache
      = stateCached.propertiesCache :=
  ⟨by decide,
    (c1_unavailable_transition_effects stateCached
      (fun _ => ObserverReaction.ok) Availability.Available
      (by decide)).2.2.2.2⟩

/-- Claim C4 (refuted): at a fresh requester (status `Unknown`) with no
registration for property 7, `getStatus` issues no `StatusGet` at all: it
sends nothing and reports `ServiceUnavailable`, while the claim demands a
synchronous `StatusGet` for every call without an active registration. -/
theorem c4_no_statusget_when_not_available :
    (initialRequesterState 0).registerEntriesMap 7 = [] ∧
    (getStatus (initialRequesterState 0) 7 ActionCallStatus.Success
      (SyncOutcome.response (some 1))).sent = [] ∧
    (getStatus (initialRequesterState 0) 7 ActionCallStatus.Success
      (SyncOutcome.response (some 1))).callStatus
      = some ActionCallStatus.ServiceUnavailable := by
  decide

/-- Claim C4 (amended): `getStatus(opID, timeout)` returns the cached value
without sending anything whenever a registration for `opID` exists;
otherwise, when the service is `Available`, it performs a synchronous
`StatusGet` request (the first envelope it hands to the transport is the
`StatusGet`) and returns its result; when the service is not `Available`
it sends nothing and reports `ServiceUnavailable` with an empty payload. -/
theorem c4_getStatus_cached_or_statusget (s : RequesterState)
    (propertyID : OpID) (sendSt : ActionCallStatus) (outcome : SyncOutcome) :
    (s.registerEntriesMap propertyID ≠ [] →
      getStatus s propertyID sendSt outcome
        = { ret := getCachedProperty s propertyID, state := s }) ∧
    (s.registerEntriesMap propertyID = [] →
      s.serviceStatus = Availability.Available →
      getStatus s propertyID sendSt outcome
        = sendMessageSync s propertyID OpCode.StatusGet none sendSt outcome ∧
      (getStatus s propertyID sendSt outcome).sent.head?
        = some { serviceID := s.sid, operationID := propertyID,
                 operationCode := OpCode.StatusGet,
                 requestID := s.nextRequestID + 1, payload := none }) ∧
    (s.registerEntriesMap propertyID = [] →
      s.serviceStatus ≠ Availability.Available →
      getStatus s propertyID sendSt outcome
        = { ret := none, state := s,
            callStatus := some ActionCallStatus.ServiceUnavailable }) := by
  refine ⟨?_, ?_, ?_⟩
  · intro h
    have hc : cachedPropertyUpToDate s propertyID = true := by
      simp [cachedPropertyUpToDate, h]
    simp [getStatus, hc]
  · intro h hA
    have hc : cachedPropertyUpToDate s propertyID = false := by
      simp [cachedPropertyUpToDate, h]
    have hu : serviceUnavailable s = false := by
      simp [serviceUnavailable, hA]
    have he : getStatus s propertyID sendSt outcome
        = sendMessageSync s propertyID OpCode.StatusGet none sendSt outcome := by
      simp [getStatus, hc, hu]
    refine ⟨he, ?_⟩
    rw [he]
    exact sendMessageSync_sent_head s propertyID OpCode.StatusGet none
      sendSt outcome
  · intro h hA
    have hc : cachedPropertyUpToDate s propertyID = false := by
      simp [cachedPropertyUpToDate, h]
    have hu : serviceUnavailable s = true := by
      simp [serviceUnavailable, hA]
    simp [getStatus, hc, hu]

/-- Witness for the amended C4 theorem: cached-path at the requester that
holds a registration and a cached value for property 5. -/
theorem c4_getStatus_cached_or_statusget_witness :
    stateCached.registerEntriesMap 5 ≠ [] ∧
    getStatus stateCached 5 ActionCallStatus.Success
        (SyncOutcome.response none)
      = { ret := getCachedProperty stateCached 5, state := stateCached } :=
  ⟨by decide,
    (c4_getStatus_cached_or_statusget stateCached 5 ActionCallStatus.Success
      (SyncOutcome.response none)).1 (by decide)⟩

/-- Claim C5: `unregister` of a valid `RegID` whose entry is present, while
the service is `Available`, removes exactly that entry; when it was the
last registration for the `OpID` the requester sends exactly one
`Unregister` envelope for that `OpID` and drops the cached property;
otherwise nothing is sent and the cache is untouched. -/
theorem c5_unregister_last_sends_unregister (s : RequesterState)
    (regID : RegID) (sendSt : ActionCallStatus) (cb : CallbackRef)
    (hA : s.serviceStatus = Availability.Available)
    (hv : regID.valid = true)
    (hmem : (regID.requestID, cb) ∈ s.registerEntriesMap regID.opID) :
    (unregister s regID sendSt).ret = ActionCallStatus.Success ∧
    (unregister s regID sendSt).state.registerEntriesMap regID.opID
      = eraseFirstReq (s.registerEntriesMap regID.opID) regID.requestID ∧
    (∀ k, k ≠ regID.opID →
      (unregister s regID sendSt).state.registerEntriesMap k
        = s.registerEntriesMap k) ∧
    (eraseFirstReq (s.registerEntriesMap regID.opID) regID.requestID = [] →
      (unregister s regID sendSt).sent
        = [{ serviceID := s.sid, operationID := regID.opID,
             operationCode := OpCode.Unregister, requestID := 0,
             payload := none }] ∧
      (unregister s regID sendSt).state.propertiesCache regID.opID
        = none) ∧
    (eraseFirstReq (s.registerEntriesMap regID.opID) regID.requestID ≠ [] →
      (unregister s regID sendSt).sent = [] ∧
      (unregister s regID sendSt).state.propertiesCache
        = s.propertiesCache) := by
  have hu : serviceUnavailable s = false := by
    simp [serviceUnavailable, hA]
  have hne : s.registerEntriesMap regID.opID ≠ [] := by
    intro h0
    rw [h0] at hmem
    exact List.not_mem_nil _ hmem
  by_cases he :
      eraseFirstReq (s.registerEntriesMap regID.opID) regID.requestID = []
  · refine ⟨?_, ?_, ?_, ?_, ?_⟩ <;>
      simp [unregister, removeRegEntry, removeCachedProperty,
        createCSMessage, hu, hv, hne, he, updateFn]
    intro k h1 h2
    exact absurd h2 h1
  · refine ⟨?_, ?_, ?_, ?_, ?_⟩ <;>
      simp [unregister, removeRegEntry, removeCachedProperty,
        createCSMessage, hu, hv, hne, he, updateFn, List.length_eq_zero]
    intro k h1 h2
    exact absurd h2 h1

/-- Witness for C5 at the requester holding the single registration
`(1, user 1)` for property 5. -/
theorem c5_unregister_last_sends_unregister_witness :
    stateOneReg.serviceStatus = Availability.Available ∧
    (unregister stateOneReg { opID := 5, requestID := 1 }
        ActionCallStatus.Success).ret = ActionCallStatus.Success :=
  ⟨by decide,
    (c5_unregister_last_sends_unregister stateOneReg
      { opID := 5, requestID := 1 } ActionCallStatus.Success
      (CallbackRef.user 1) (by decide) (by decide) (by decide)).1⟩

/-- Claim C10: while the service is `Available`, only a registration that
creates the first entry for an `OpID` sends a register envelope (carrying
the freshly allocated request ID); every subsequent registration for the
same `OpID` sends nothing, and a subsequent `registerStatus` immediately
invokes the new callback with the cached property value when one exists
and reports `Success`. -/
theorem c10_first_register_sends_envelope (s : RequesterState) (opID : OpID)
    (cbId : Nat) (sendSt : ActionCallStatus)
    (hA : s.serviceStatus = Availability.Available) :
    (s.registerEntriesMap opID = [] →
      (registerStatus s opID (some (CallbackRef.user cbId)) sendSt).sent
        = [{ serviceID := s.sid, operationID := opID,
             operationCode := OpCode.StatusRegister,
             requestID := s.nextRequestID + 1, payload := none }] ∧
      (registerSignal s opID (some (CallbackRef.user cbId)) sendSt).sent
        = [{ serviceID := s.sid, operationID := opID,
             operationCode := OpCode.SignalRegister,
             requestID := s.nextRequestID + 1, payload := none }]) ∧
    (s.registerEntriesMap opID ≠ [] →
      (registerStatus s opID (some (CallbackRef.user cbId)) sendSt).sent
        = [] ∧
      (registerSignal s opID (some (CallbackRef.user cbId)) sendSt).sent
        = [] ∧
      (registerSignal s opID (some (CallbackRef.user cbId)) sendSt).calls
        = [] ∧
      (registerStatus s opID (some (CallbackRef.user cbId)) sendSt).callStatus
        = some ActionCallStatus.Success ∧
      (getCachedProperty s opID = none →
        (registerStatus s opID (some (CallbackRef.user cbId)) sendSt).calls
          = []) ∧
      (∀ v, getCachedProperty s opID = some v →
        (registerStatus s opID (some (CallbackRef.user cbId)) sendSt).calls
          = [(cbId, some v)])) := by
  have hu : serviceUnavailable s = false := by
    simp [serviceUnavailable, hA]
  constructor
  · intro h
    by_cases hs : sendSt = ActionCallStatus.Success <;>
      simp [registerStatus, registerSignal, registerNotification,
        storeRegEntry, createCSMessage, hu, h, hs]
  · intro h
    refine ⟨?_, ?_, ?_, ?_, ?_, ?_⟩
    · cases hgc : getCachedProperty s opID <;>
        simp [registerStatus, registerNotification, storeRegEntry,
          createCSMessage, hu, h, hgc, applyCallback,
          List.length_eq_zero]
    · simp [registerSignal, registerNotification, storeRegEntry,
        createCSMessage, hu, h, List.length_eq_zero]
    · simp [registerSignal, registerNotification, storeRegEntry,
        createCSMessage, hu, h, List.length_eq_zero]
    · cases hgc : getCachedProperty s opID <;>
        simp [registerStatus, registerNotification, storeRegEntry,
          createCSMessage, hu, h, hgc, applyCallback,
          List.length_eq_zero]
    · intro hgc
      simp [registerStatus, registerNotification, storeRegEntry,
        createCSMessage, hu, h, hgc, List.length_eq_zero]
    · intro v hgc
      simp [registerStatus, registerNotification, storeRegEntry,
        createCSMessage, hu, h, hgc, applyCallback,
        List.length_eq_zero]

/-- Witness for C10: a first registration at the empty available requester
sends the register envelope; a second registration at the requester that
already holds a registration and the cached value 42 for property 5 sends
nothing and serves the cache to the new callback. -/
theorem c10_first_register_sends_envelope_witness :
    stateAvail.registerEntriesMap 5 = [] ∧
    (registerStatus stateAvail 5 (some (CallbackRef.user 1))
        ActionCallStatus.Success).sent
      = [{ serviceID := stateAvail.sid, operationID := 5,
           operationCode := OpCode.StatusRegister,
           requestID := stateAvail.nextRequestID + 1, payload := none }] ∧
    stateCached.registerEntriesMap 5 ≠ [] ∧
    (registerStatus stateCached 5 (some (CallbackRef.user 2))
        ActionCallStatus.Success).calls = [(2, some 42)] :=
  ⟨by decide,
    ((c10_first_register_sends_envelope stateAvail 5 1
      ActionCallStatus.Success (by decide)).1 (by decide)).1,
    by decide,
    ((c10_first_register_sends_envelope stateCached 5 2
      ActionCallStatus.Success (by decide)).2 (by decide)).2.2.2.2.2 42
      (by decide)⟩

/-- Claim C2 (refuted): at the available requester, a synchronous request
that times out reports `Timeout`, returns the empty payload and sends the
`Abort`, but the promise it stored (id 0) is still in
`syncRequestPromises` afterwards, while the claim requires it removed. -/
theorem c2_timeout_leaves_promise_in_syncpromises :
    (sendRequest stateAvail 3 (some 9) ActionCallStatus.Success
        SyncOutcome.timeoutExpired).callStatus
      = some ActionCallStatus.Timeout ∧
    (sendRequest stateAvail 3 (some 9) ActionCallStatus.Success
        SyncOutcome.timeoutExpired).ret = none ∧
    ((sendRequest stateAvail 3 (some 9) ActionCallStatus.Success
        SyncOutcome.timeoutExpired).sent.map (fun m => m.operationCode))
      = [OpCode.Request, OpCode.Abort] ∧
    (sendRequest stateAvail 3 (some 9) ActionCallStatus.Success
        SyncOutcome.timeoutExpired).state.syncRequestPromises = [0] := by
  decide

/-- Claim C2 (amended): on timeout of a synchronous request the requester
removes the pending request entry, sends the request envelope followed by
an `Abort` envelope carrying the same request ID, reports
`ActionCallStatus.Timeout` and returns the empty payload; the sync
promise stored for the call remains in `syncRequestPromises` (it is only
removed when a response arrives, when the initial send fails, or when the
service becomes unavailable). -/
theorem c2_timeout_aborts_but_keeps_promise (s : RequesterState)
    (opID : OpID) (payload : CSPayloadIFPtr)
    (hA : s.serviceStatus = Availability.Available)
    (hfresh : ∀ e ∈ s.requestEntriesMap opID, e.1 ≠ s.nextRequestID + 1) :
    (sendRequest s opID payload ActionCallStatus.Success
        SyncOutcome.timeoutExpired).ret = none ∧
    (sendRequest s opID payload ActionCallStatus.Success
        SyncOutcome.timeoutExpired).callStatus
      = some ActionCallStatus.Timeout ∧
    (sendRequest s opID payload ActionCallStatus.Success
        SyncOutcome.timeoutExpired).sent
      = [{ serviceID := s.sid, operationID := opID,
           operationCode := OpCode.Request,
           requestID := s.nextRequestID + 1, payload := payload },
         { serviceID := s.sid, operationID := opID,
           operationCode := OpCode.Abort,
           requestID := s.nextRequestID + 1, payload := none }] ∧
    (sendRequest s opID payload ActionCallStatus.Success
        SyncOutcome.timeoutExpired).state.requestEntriesMap opID
      = s.requestEntriesMap opID ∧
    (sendRequest s opID payload ActionCallStatus.Success
        SyncOutcome.timeoutExpired).state.syncRequestPromises
      = s.syncRequestPromises ++ [s.nextPromiseID] := by
  have hu : serviceUnavailable s = false := by
    simp [serviceUnavailable, hA]
  have hfind := find_append_fresh (s.requestEntriesMap opID)
    (s.nextRequestID + 1) (CallbackRef.syncResolver s.nextPromiseID) hfresh
  have herase := eraseFirstReq_append_fresh (s.requestEntriesMap opID)
    (s.nextRequestID + 1) (CallbackRef.syncResolver s.nextPromiseID) hfresh
  simp [sendRequest, sendMessageSync, sendMessageAsync,
    storeAndSendRequestToServer, storeRegEntry, createCSMessage,
    abortRequest, RegID.valid, hu, hfind, herase, updateFn]

/-- Witness for the amended C2 theorem at the available requester. -/
theorem c2_timeout_aborts_but_keeps_promise_witness :
    stateAvail.serviceStatus = Availability.Available ∧
    (sendRequest stateAvail 4 none ActionCallStatus.Success
        SyncOutcome.timeoutExpired).callStatus
      = some ActionCallStatus.Timeout :=
  ⟨by decide,
    (c2_timeout_aborts_but_keeps_promise stateAvail 4 none (by decide)
      (by decide)).2.1⟩
